import Mathlib

/-!
Verification of the Google Cloud Agent for Compute Workloads (workloadagent)
supervisor and collection pipeline against its natural-language specification.

The Go sources are shallowly embedded: pure helpers become Lean functions,
stateful handlers become explicit state-transition functions, fallible calls
return `Except`, and Go nil-able pointers become `Option`.
-/

namespace WorkloadAgent

/-! ## Data model: cloud properties, workload metrics, insight request
Embedded from `internal/workloadmanager` (workloadmanager.go). Go's
`WorkloadType` is a string type, so it is embedded as `String`; the metrics
map is embedded as an association list with unique keys. -/

structure CloudProperties where
  projectId : String
  instanceId : String
  instanceName : String
  region : String
  deriving Repr, DecidableEq

structure WorkloadMetrics where
  workloadType : String
  metrics : List (String × String)
  deriving Repr, DecidableEq

/-- The `TorsoValidation_WorkloadType` enum of the data-warehouse proto,
restricted to the values the embedded code mentions. -/
inductive TorsoWorkloadType where
  | WORKLOAD_TYPE_UNSPECIFIED
  | ORACLE
  | MYSQL
  | REDIS
  deriving Repr, DecidableEq

structure TorsoValidation where
  workloadType : TorsoWorkloadType
  validationDetails : List (String × String)
  projectId : String
  instanceName : String
  agentVersion : String
  deriving Repr, DecidableEq

structure Insight where
  instanceId : String
  torsoValidation : TorsoValidation
  deriving Repr, DecidableEq

structure WriteInsightRequest where
  insight : Insight
  deriving Repr, DecidableEq

/-- Modelled from the spec: `configuration.AgentVersion`, a version string
constant from the configuration package (not under src). Its exact value is
irrelevant to every claim. -/
def agentVersion : String := "agent-version"

/-- The fixed `workloadTypeMap` literal inside `createWriteInsightRequest`
(workloadmanager.go): only ORACLE, MYSQL, REDIS and UNKNOWN have entries. -/
def workloadTypeMap : List (String × TorsoWorkloadType) :=
  [("ORACLE", TorsoWorkloadType.ORACLE),
   ("MYSQL", TorsoWorkloadType.MYSQL),
   ("REDIS", TorsoWorkloadType.REDIS),
   ("UNKNOWN", TorsoWorkloadType.WORKLOAD_TYPE_UNSPECIFIED)]

/-- The Go map lookup `workloadTypeMap[wm.WorkloadType]` with the
`if !ok { workloadType = ..._WORKLOAD_TYPE_UNSPECIFIED }` default. -/
def lookupWorkloadType (wt : String) : TorsoWorkloadType :=
  match (workloadTypeMap.lookup wt) with
  | some v => v
  | none => TorsoWorkloadType.WORKLOAD_TYPE_UNSPECIFIED

/-- Embedding of `createWriteInsightRequest` (workloadmanager.go): builds a
`WriteInsightRequest` from a `WorkloadMetrics` batch and `CloudProperties`. -/
def createWriteInsightRequest (wm : WorkloadMetrics) (cp : CloudProperties) :
    WriteInsightRequest :=
  { insight :=
    { instanceId := cp.instanceId
      torsoValidation :=
      { workloadType := lookupWorkloadType wm.workloadType
        validationDetails := wm.metrics
        projectId := cp.projectId
        instanceName := cp.instanceName
        agentVersion := agentVersion } } }

/-- The known workload kinds named by the specification. -/
def knownWorkloadKinds : List String :=
  ["ORACLE", "MYSQL", "POSTGRES", "REDIS", "MONGODB"]

/-! ## Insight shipping (`SendDataInsight`, workloadmanager.go)
The WLM writer returns a Go pair `(resp *WriteInsightResponse, err error)`;
both sides are nil-able, so the call outcome is `Option Resp × Option String`.
`SendDataInsight` makes exactly one `WriteInsightAndGetResponse` call; to make
that single-use observable the writer is embedded as a script of scheduled
call outcomes of which one is consumed. -/

structure WriteInsightResponse where
  httpStatusCode : Nat
  deriving Repr, DecidableEq

abbrev WLMCallOutcome := Option WriteInsightResponse × Option String

/-- Embedding of `SendDataInsight` (workloadmanager.go): builds the request, performs one
writer call; a non-nil error is propagated, otherwise the response pointer is
returned as-is (even when nil). -/
def sendDataInsight (wm : WorkloadMetrics) (cp : CloudProperties)
    (call : WLMCallOutcome) : Except String (Option WriteInsightResponse) :=
  let _req := createWriteInsightRequest wm cp
  match call with
  | (_, some e) => Except.error e
  | (res, none) => Except.ok res

/-- Variant of `SendDataInsight` run against a script of scheduled writer-call outcomes:
the single call consumes exactly the head of the script and the remainder is
returned untouched, witnessing that no retry is performed. -/
def sendDataInsightScripted (wm : WorkloadMetrics) (cp : CloudProperties)
    (script : List WLMCallOutcome) :
    Except String (Option WriteInsightResponse) × List WLMCallOutcome :=
  match script with
  | [] => (Except.error "no scheduled call outcome", [])
  | c :: rest => (sendDataInsight wm cp c, rest)

/-! ## Service communication (`internal/servicecommunication`)
The package itself is not under src; its types are reconstructed from their
uses in discovery.go and oracle.go. -/

instance {ε α : Type} [DecidableEq ε] [DecidableEq α] :
    DecidableEq (Except ε α) := fun a b =>
  match a, b with
  | Except.ok x, Except.ok y =>
    if h : x = y then Decidable.isTrue (by rw [h])
    else Decidable.isFalse (by intro hc; cases hc; exact h rfl)
  | Except.ok _, Except.error _ => Decidable.isFalse (by intro hc; cases hc)
  | Except.error _, Except.ok _ => Decidable.isFalse (by intro hc; cases hc)
  | Except.error x, Except.error y =>
    if h : x = y then Decidable.isTrue (by rw [h])
    else Decidable.isFalse (by intro hc; cases hc; exact h rfl)

/-- A process handle: `Name()` is a fallible lookup (may race with process
exit), as in `servicecommunication.ProcessWrapper`. -/
structure ProcessWrapper where
  pid : Int
  name : Except Unit String
  deriving Repr, DecidableEq

structure DiscoveryResult where
  processes : List ProcessWrapper
  deriving Repr, DecidableEq

/-- Message origins: `servicecommunication.Discovery`,
`servicecommunication.DWActivation`, and any other enum value (the handlers'
`default` branch). -/
inductive Origin where
  | discovery
  | dwActivation
  | unknownOther
  deriving Repr, DecidableEq

structure Message where
  origin : Origin
  discoveryResult : DiscoveryResult
  deriving Repr, DecidableEq

/-- Modelled from the spec: `servicecommunication.HasAnyPrefix` (not under
src), which scans a process name against a prefix set; true when any of the
given prefixes is a prefix of the name. -/
def hasAnyOfPrefixes (name : String) (ps : List String) : Bool :=
  ps.any (fun p => p.data.isPrefixOf name.data)

/-! ## Oracle workload service (`internal/daemon/oracle/oracle.go`) -/

def oraProcessPrefixes : List String := ["ora_pmon_", "db_pmon_"]

/-- Whether a process matches the Oracle prefix set: the handler only checks
names whose lookup succeeded (`err == nil`). -/
def procMatchesOra (p : ProcessWrapper) : Bool :=
  match p.name with
  | Except.ok n => hasAnyOfPrefixes n oraProcessPrefixes
  | Except.error _ => false

/-- The mutable state of the Oracle service touched by
`checkServiceCommunication`: the latch and the processes snapshot
(`nil` until the first discovery message). -/
structure OracleState where
  isProcessPresent : Bool
  processes : Option (List ProcessWrapper)
  deriving Repr, DecidableEq

/-- Embedding of `Service.checkServiceCommunication` (oracle.go), restricted to the effect
of processing one received message: a Discovery-origin message overwrites the
processes snapshot and latches `isProcessPresent` when some process name has
an Oracle prefix; DWActivation and unknown origins only log. -/
def checkServiceCommunication (s : OracleState) (m : Message) : OracleState :=
  match m.origin with
  | Origin.discovery =>
    let s1 : OracleState := { s with processes := some m.discoveryResult.processes }
    if m.discoveryResult.processes.any procMatchesOra then
      { s1 with isProcessPresent := true }
    else s1
  | Origin.dwActivation => s
  | Origin.unknownOther => s

/-- Tri-state Oracle configuration relevant to `Service.Start`: the proto
`enabled` field is a nil-able bool, as are the discovery/metrics sub-configs'
`enabled` fields (Go getters default them to false). -/
structure OracleConfiguration where
  enabled : Option Bool
  discoveryEnabled : Option Bool
  metricsEnabled : Option Bool
  deriving Repr, DecidableEq

/-- What `Service.Start` did after passing its gates. -/
structure StartResult where
  startedDiscovery : Bool
  startedMetrics : Bool
  returnedBeforeRoutines : Bool
  deriving Repr, DecidableEq

/-- The tail of `Service.Start` after the enabled gate: the Linux platform
gate, then conditionally starting the discovery and metric-collection
recoverable routines. -/
def serviceStartAfterGate (cfg : OracleConfiguration) (goos : String) :
    StartResult :=
  if goos ≠ "linux" then
    { startedDiscovery := false, startedMetrics := false,
      returnedBeforeRoutines := true }
  else
    { startedDiscovery := cfg.discoveryEnabled.getD false
      startedMetrics := cfg.metricsEnabled.getD false
      returnedBeforeRoutines := false }

/-- Embedding of `Service.Start` (oracle.go). `processEverPresent` abstracts whether the
`isProcessPresent` latch ever becomes true; the `enabled == nil` branch polls
that latch forever, so a run in which it never latches blocks and is embedded
as `none`. `enabled=false` returns immediately; `enabled=true` proceeds to
the platform gate without consulting the latch. -/
def serviceStart (cfg : OracleConfiguration) (goos : String)
    (processEverPresent : Bool) : Option StartResult :=
  match cfg.enabled with
  | none =>
    if processEverPresent then some (serviceStartAfterGate cfg goos) else none
  | some false =>
    some { startedDiscovery := false, startedMetrics := false,
           returnedBeforeRoutines := true }
  | some true => some (serviceStartAfterGate cfg goos)

/-! ## Process-discovery fan-out
(`internal/servicecommunication/discovery/discovery.go`) -/

/-- A bounded subscriber channel: the buffered messages and the capacity. A
non-blocking send (`select { case ch <- msg: default: }`) succeeds only when
the buffer is below capacity. -/
structure MsgChan where
  buffer : List Message
  capacity : Nat
  deriving Repr, DecidableEq

def chanFull (c : MsgChan) : Bool := decide (c.capacity ≤ c.buffer.length)

/-- One non-blocking send attempt on one channel; returns the new channel
state and whether the send succeeded. -/
def trySend (c : MsgChan) (m : Message) : MsgChan × Bool :=
  if c.buffer.length < c.capacity then
    ({ c with buffer := c.buffer ++ [m] }, true)
  else (c, false)

/-- The send loop of `CommonDiscovery`: one non-blocking send per subscriber
channel, tallying the full channels in `fullChs`. -/
def fanOut (chs : List MsgChan) (m : Message) : List MsgChan × Nat :=
  match chs with
  | [] => ([], 0)
  | c :: rest =>
    let s := trySend c m
    let r := fanOut rest m
    (s.1 :: r.1, if s.2 then r.2 else r.2 + 1)

/-- Embedding of `Service.commonDiscoveryLoop` (discovery.go): a failed process listing is
propagated; a listing of fewer than one process is an error
("no processes found"); otherwise the result wraps the processes. -/
def commonDiscoveryLoop (listing : Except String (List ProcessWrapper)) :
    Except String DiscoveryResult :=
  match listing with
  | Except.error e => Except.error e
  | Except.ok ps =>
    if ps.length < 1 then Except.error "no processes found"
    else Except.ok { processes := ps }

/-- One observable round of the `CommonDiscovery` for-loop. -/
inductive Round where
  | success (result : DiscoveryResult) (fullChs : Nat)
  | terminated (e : String)
  deriving Repr, DecidableEq

/-- The `CommonDiscovery` for-loop (discovery.go), run for at most `fuel`
ticks over a stream of per-tick process listings starting at tick `k`: each
round runs `commonDiscoveryLoop`; an error ends the loop; a success fans the
`Discovery`-origin message out to every subscriber channel and continues on
the next tick. -/
def commonDiscoveryRun (fuel : Nat)
    (listings : Nat → Except String (List ProcessWrapper))
    (chs : List MsgChan) (k : Nat) : List Round :=
  match fuel with
  | 0 => []
  | Nat.succ fuel =>
    match commonDiscoveryLoop (listings k) with
    | Except.error e => [Round.terminated e]
    | Except.ok res =>
      let fo := fanOut chs { origin := Origin.discovery, discoveryResult := res }
      Round.success res fo.2 :: commonDiscoveryRun fuel listings fo.1 (k + 1)

/-! ## Postgres metric collection (`internal/postgresmetrics`)
Only the package's tests are under src; the implementation is modelled from
the spec (§4.4) and checked against the expectations of those tests. -/

def workMemKey : String := "work_mem"

/-- Embedding of `strings.HasSuffix` over the character lists underlying the
strings. -/
def strEndsWith (s suffix : String) : Bool :=
  suffix.data.isSuffixOf s.data

def digitVal (c : Char) : Option Nat :=
  if c = '0' then some 0 else if c = '1' then some 1
  else if c = '2' then some 2 else if c = '3' then some 3
  else if c = '4' then some 4 else if c = '5' then some 5
  else if c = '6' then some 6 else if c = '7' then some 7
  else if c = '8' then some 8 else if c = '9' then some 9 else none

def natOfChars : List Char → Nat → Option Nat
  | [], acc => some acc
  | c :: cs, acc =>
    match digitVal c with
    | some d => natOfChars cs (acc * 10 + d)
    | none => none

/-- Decimal integer parsing (`strconv.Atoi`), embedded over the character
list underlying the string. -/
def strToInt (s : String) : Option Int :=
  match s.data with
  | [] => none
  | '-' :: cs =>
    match cs with
    | [] => none
    | _ => (natOfChars cs 0).map (fun n => -(n : Int))
  | cs => (natOfChars cs 0).map (fun n => (n : Int))

def digitChar (n : Nat) : Char :=
  if n = 0 then '0' else if n = 1 then '1' else if n = 2 then '2'
  else if n = 3 then '3' else if n = 4 then '4' else if n = 5 then '5'
  else if n = 6 then '6' else if n = 7 then '7' else if n = 8 then '8'
  else '9'

def natDigitsAux : Nat → Nat → List Char
  | 0, _ => []
  | fuel + 1, n =>
    if n < 10 then [digitChar n]
    else natDigitsAux fuel (n / 10) ++ [digitChar (n % 10)]

/-- Decimal rendering of an integer (`strconv.Itoa`), embedded over character
lists. -/
def intToDecimalString (i : Int) : String :=
  match i with
  | Int.ofNat n => String.mk (natDigitsAux (n + 1) n)
  | Int.negSucc m => String.mk ('-' :: natDigitsAux (m + 2) (m + 1))

/-- Modelled from the spec: the `work_mem` unit normalization of
`postgresmetrics` (implementation not under src). "The `work_mem` reading is
returned as a string suffixed with `kB`, `MB`, or `GB`; the engine parses the
number and multiplies by the appropriate power of 1024 before emitting an
integer byte count." -/
def parseWorkMem (s : String) : Option Int :=
  if strEndsWith s "kB" then
    (strToInt (s.dropRight 2)).map (fun n => n * 1024)
  else if strEndsWith s "MB" then
    (strToInt (s.dropRight 2)).map (fun n => n * 1024 * 1024)
  else if strEndsWith s "GB" then
    (strToInt (s.dropRight 2)).map (fun n => n * 1024 * 1024 * 1024)
  else strToInt s

/-- Modelled from the spec: `postgresmetrics.CollectMetricsOnce`
(implementation not under src). One metric tick: run `SHOW work_mem`, take
the single returned row, normalize it to an integer byte count, emit a
POSTGRES `WorkloadMetrics` with the stringified count, and ship it through
`SendDataInsight`; a shipping error makes the tick fail, otherwise the
metrics are returned. -/
def postgresCollectMetricsOnce (workMemRows : Except String (List String))
    (call : WLMCallOutcome) (cp : CloudProperties) :
    Except String WorkloadMetrics :=
  match workMemRows with
  | Except.error e => Except.error e
  | Except.ok [] => Except.error "no rows returned"
  | Except.ok (r :: _) =>
    match parseWorkMem r with
    | none => Except.error "could not parse work_mem"
    | some v =>
      let wm : WorkloadMetrics :=
        { workloadType := "POSTGRES",
          metrics := [(workMemKey, intToDecimalString v)] }
      match sendDataInsight wm cp call with
      | Except.error e => Except.error e
      | Except.ok _ => Except.ok wm

/-! ## MySQL role detection and replication zones (`internal/mysqlmetrics`)
Only the package's tests are under src; the implementation is modelled from
the spec (§4.4) and checked against the expectations of those tests. -/

def sourceRole : String := "source"
def replicaRole : String := "replica"

/-- Modelled from the spec: `mysqlmetrics.currentRole` (implementation not
under src). "Attempt `SHOW REPLICA STATUS`, fall back to `SHOW SLAVE STATUS`;
the presence of any row ⇒ replica, otherwise source." A query outcome is an
error or a list of rows; the fallback fires when the first query fails. -/
def currentRole (replicaStatusRows : Except Unit (List String))
    (slaveStatusRows : Except Unit (List String)) : String :=
  match replicaStatusRows with
  | Except.ok rows => if rows.length ≥ 1 then replicaRole else sourceRole
  | Except.error _ =>
    match slaveStatusRows with
    | Except.ok rows => if rows.length ≥ 1 then replicaRole else sourceRole
    | Except.error _ => sourceRole

/-- The network interface of `mysqlmetrics` (ParseIP / LookupAddr /
LookupHost), as used by the replication-zone resolution. -/
structure NetIface where
  parsesAsIP : String → Bool
  lookupAddr : String → Except Unit (List String)
  lookupHost : String → Except Unit (List String)

/-- Splitting a character list at the dots, as `strings.Split(s, ".")`. -/
def splitOnDot (cs : List Char) : List (List Char) :=
  match cs with
  | [] => [[]]
  | c :: rest =>
    let r := splitOnDot rest
    if c = '.' then [] :: r
    else
      match r with
      | [] => [[c]]
      | g :: gs => (c :: g) :: gs

/-- The second dotted component of an FQDN, the zone tag. -/
def zoneFromFqdn (fqdn : String) : Option String :=
  match (splitOnDot fqdn.data).map (fun g => String.mk g) with
  | _ :: z :: _ => some z
  | _ => none

/-- Modelled from the spec: the per-address resolution of
`mysqlmetrics.replicationZones` (implementation not under src). "For each
entry attempt (a) to parse as an IP: if successful, resolve hostname via
reverse DNS; (b) otherwise treat as hostname and resolve forward. Extract the
second dotted component of the resulting FQDN as the zone tag. Failures per
address are logged and skipped, never fatal." In case (a) the FQDN is the
first reverse-DNS name; in case (b) a successful forward resolution validates
the address, which is itself the FQDN. -/
def resolveZone (net : NetIface) (addr : String) : Option String :=
  if net.parsesAsIP addr then
    match net.lookupAddr addr with
    | Except.ok (fqdn :: _) => zoneFromFqdn fqdn
    | _ => none
  else
    match net.lookupHost addr with
    | Except.ok (_ :: _) => zoneFromFqdn addr
    | _ => none

/-- Modelled from the spec: `mysqlmetrics.replicationZones` (implementation
not under src). "If role is source, read the list of currently connected
replica addresses; ... Deduplicate." A non-source role reads nothing and
emits no zones; a failed address query emits no zones. -/
def replicationZones (role : String)
    (replicaAddrRows : Except Unit (List String)) (net : NetIface) :
    List String :=
  if role = sourceRole then
    match replicaAddrRows with
    | Except.error _ => []
    | Except.ok addrs => (addrs.filterMap (resolveZone net)).dedup
  else []

/-! ## Theorems -/

/-- C1 (counterexample): the claim that exactly the unknown workload kinds
map to WORKLOAD_TYPE_UNSPECIFIED is false at the concrete known kind
POSTGRES: `createWriteInsightRequest` on a POSTGRES batch produces
WORKLOAD_TYPE_UNSPECIFIED even though POSTGRES is a known kind. -/
theorem c1_postgres_maps_to_unspecified :
    ¬ (((createWriteInsightRequest
          { workloadType := "POSTGRES", metrics := [] }
          { projectId := "p", instanceId := "i", instanceName := "n",
            region := "r" }).insight.torsoValidation.workloadType
        = TorsoWorkloadType.WORKLOAD_TYPE_UNSPECIFIED)
      ↔ "POSTGRES" ∉ knownWorkloadKinds) := by
  decide

/-- C1 (amended): `createWriteInsightRequest` translates the batch's workload
type through the fixed mapping `workloadTypeMap`: ORACLE, MYSQL and REDIS map
to their corresponding TorsoValidation values, and every other kind —
including the known kinds POSTGRES and MONGODB — becomes
WORKLOAD_TYPE_UNSPECIFIED. -/
theorem c1_workload_type_translated (wt : String)
    (ms : List (String × String)) (cp : CloudProperties) :
    ((createWriteInsightRequest { workloadType := wt, metrics := ms }
        cp).insight.torsoValidation.workloadType
      = TorsoWorkloadType.WORKLOAD_TYPE_UNSPECIFIED
      ↔ wt ∉ (["ORACLE", "MYSQL", "REDIS"] : List String))
    ∧ (wt = "ORACLE" →
        (createWriteInsightRequest { workloadType := wt, metrics := ms }
          cp).insight.torsoValidation.workloadType = TorsoWorkloadType.ORACLE)
    ∧ (wt = "MYSQL" →
        (createWriteInsightRequest { workloadType := wt, metrics := ms }
          cp).insight.torsoValidation.workloadType = TorsoWorkloadType.MYSQL)
    ∧ (wt = "REDIS" →
        (createWriteInsightRequest { workloadType := wt, metrics := ms }
          cp).insight.torsoValidation.workloadType = TorsoWorkloadType.REDIS) := by
  have key : ∀ w : String, lookupWorkloadType w =
      if w = "ORACLE" then TorsoWorkloadType.ORACLE
      else if w = "MYSQL" then TorsoWorkloadType.MYSQL
      else if w = "REDIS" then TorsoWorkloadType.REDIS
      else TorsoWorkloadType.WORKLOAD_TYPE_UNSPECIFIED := by
    intro w
    simp only [lookupWorkloadType, workloadTypeMap, List.lookup]
    rcases eq_or_ne w "ORACLE" with h1 | h1
    · simp [h1]
    rw [show (w == "ORACLE") = false from beq_eq_false_iff_ne.mpr h1, if_neg h1]
    rcases eq_or_ne w "MYSQL" with h2 | h2
    · simp [h2]
    rw [show (w == "MYSQL") = false from beq_eq_false_iff_ne.mpr h2, if_neg h2]
    rcases eq_or_ne w "REDIS" with h3 | h3
    · simp [h3]
    rw [show (w == "REDIS") = false from beq_eq_false_iff_ne.mpr h3, if_neg h3]
    rcases eq_or_ne w "UNKNOWN" with h4 | h4
    · simp [h4]
    rw [show (w == "UNKNOWN") = false from beq_eq_false_iff_ne.mpr h4]
  simp only [createWriteInsightRequest, key]
  refine ⟨?_, fun h => by simp [h], fun h => by simp [h], fun h => by simp [h]⟩
  by_cases h1 : wt = "ORACLE" <;> by_cases h2 : wt = "MYSQL" <;>
    by_cases h3 : wt = "REDIS" <;> simp_all

/-- C1 witness: the amended theorem applied at the MYSQL batch. -/
theorem c1_workload_type_translated_witness :
    (createWriteInsightRequest { workloadType := "MYSQL", metrics := [] }
      { projectId := "p", instanceId := "i", instanceName := "n",
        region := "r" }).insight.torsoValidation.workloadType
      = TorsoWorkloadType.MYSQL :=
  (c1_workload_type_translated "MYSQL" []
    { projectId := "p", instanceId := "i", instanceName := "n",
      region := "r" }).2.2.1 rfl

/-- C2: the Oracle service's Start gate. With `enabled=true` it proceeds
immediately to the post-gate body (which starts the loops) regardless of the
process latch; with `enabled` unset it blocks while the latch is false and
proceeds once it is true; with `enabled=false` it returns at once having
started neither routine. -/
theorem c2_start_enabled_gate (cfg : OracleConfiguration) (goos : String)
    (present : Bool) :
    (cfg.enabled = some true →
      serviceStart cfg goos present = some (serviceStartAfterGate cfg goos))
    ∧ (cfg.enabled = none →
        serviceStart cfg goos false = none
        ∧ serviceStart cfg goos true = some (serviceStartAfterGate cfg goos))
    ∧ (cfg.enabled = some false →
        serviceStart cfg goos present
          = some { startedDiscovery := false, startedMetrics := false,
                   returnedBeforeRoutines := true }) := by
  refine ⟨fun h => ?_, fun h => ⟨?_, ?_⟩, fun h => ?_⟩ <;>
    simp_all [serviceStart]

/-- C2 witness: the gate applied at a concrete disabled configuration. -/
theorem c2_start_enabled_gate_witness :
    serviceStart { enabled := some false, discoveryEnabled := some true,
                   metricsEnabled := some true } "linux" true
      = some { startedDiscovery := false, startedMetrics := false,
               returnedBeforeRoutines := true } :=
  (c2_start_enabled_gate
    { enabled := some false, discoveryEnabled := some true,
      metricsEnabled := some true } "linux" true).2.2 rfl

/-- C3: a process listing that returns zero processes makes the discovery
round yield the error "no processes found" (and no DiscoveryResult), and the
fan-out loop terminates on that round instead of continuing to later ticks. -/
theorem c3_empty_listing_terminates (fuel k : Nat)
    (listings : Nat → Except String (List ProcessWrapper))
    (chs : List MsgChan) (h : listings k = Except.ok []) :
    commonDiscoveryLoop (listings k) = Except.error "no processes found"
    ∧ commonDiscoveryRun (fuel + 1) listings chs k
        = [Round.terminated "no processes found"] := by
  constructor <;> simp [commonDiscoveryRun, commonDiscoveryLoop, h]

/-- C3 witness: the theorem applied to the constant empty listing. -/
theorem c3_empty_listing_terminates_witness :
    commonDiscoveryRun 1 (fun _ => Except.ok []) [] 0
      = [Round.terminated "no processes found"] :=
  (c3_empty_listing_terminates 0 0 (fun _ => Except.ok []) [] rfl).2

/-- C4: whenever the Oracle service passes its enabled gate (explicitly
enabled, or auto-enabled by the process latch) on a non-Linux host, Start
returns before starting either the discovery or the metric-collection
routine. -/
theorem c4_non_linux_refuses (cfg : OracleConfiguration) (goos : String)
    (present : Bool)
    (hgate : cfg.enabled = some true ∨ (cfg.enabled = none ∧ present = true))
    (hos : goos ≠ "linux") :
    serviceStart cfg goos present
      = some { startedDiscovery := false, startedMetrics := false,
               returnedBeforeRoutines := true } := by
  rcases hgate with h | ⟨h, hp⟩ <;>
    simp_all [serviceStart, serviceStartAfterGate]

/-- C4 witness: the theorem applied at an enabled config on a Windows host. -/
theorem c4_non_linux_refuses_witness :
    serviceStart { enabled := some true, discoveryEnabled := some true,
                   metricsEnabled := some true } "windows" false
      = some { startedDiscovery := false, startedMetrics := false,
               returnedBeforeRoutines := true } :=
  c4_non_linux_refuses
    { enabled := some true, discoveryEnabled := some true,
      metricsEnabled := some true } "windows" false (Or.inl rfl) (by decide)

/-- C5: Postgres work_mem normalization. A single-row answer to
`SHOW work_mem` whose parse yields byte count v is emitted as the stringified
v in a POSTGRES WorkloadMetrics; the kB/MB/GB suffixes scale by the
corresponding power of 1024, so "80MB" parses to 83886080, "64kB" to 65536
and "4GB" to 4294967296. -/
theorem c5_work_mem_normalization :
    (∀ (s : String) (v : Int) (cp : CloudProperties)
        (resp : WriteInsightResponse),
      parseWorkMem s = some v →
      postgresCollectMetricsOnce (Except.ok [s]) (some resp, none) cp
        = Except.ok { workloadType := "POSTGRES",
                      metrics := [(workMemKey, intToDecimalString v)] })
    ∧ parseWorkMem "80MB" = some 83886080
    ∧ parseWorkMem "64kB" = some 65536
    ∧ parseWorkMem "4GB" = some 4294967296 := by
  refine ⟨fun s v cp resp h => ?_, by decide, by decide, by decide⟩
  simp [postgresCollectMetricsOnce, h, sendDataInsight]

/-- C5 witness: the theorem applied at the concrete row "80MB". -/
theorem c5_work_mem_normalization_witness :
    postgresCollectMetricsOnce (Except.ok ["80MB"])
      (some { httpStatusCode := 201 }, none)
      { projectId := "p", instanceId := "i", instanceName := "n",
        region := "r" }
      = Except.ok { workloadType := "POSTGRES",
                    metrics := [(workMemKey, "83886080")] } := by
  have h := c5_work_mem_normalization.1 "80MB" 83886080
    { projectId := "p", instanceId := "i", instanceName := "n",
      region := "r" }
    { httpStatusCode := 201 } c5_work_mem_normalization.2.1
  have e : intToDecimalString 83886080 = "83886080" := by decide
  rw [h, e]

/-- C6: MySQL role detection. The reported role is replica exactly when the
SHOW REPLICA STATUS query returns at least one row, or that query fails and
the fallback SHOW SLAVE STATUS query returns at least one row; in every other
case — including both queries erroring — the role is source. -/
theorem c6_current_role (r s : Except Unit (List String)) :
    (currentRole r s = replicaRole
      ↔ ((∃ rows, r = Except.ok rows ∧ rows ≠ [])
          ∨ (∃ e rows, r = Except.error e ∧ s = Except.ok rows ∧ rows ≠ [])))
    ∧ (currentRole r s = replicaRole ∨ currentRole r s = sourceRole) := by
  cases r with
  | ok rows =>
    cases rows with
    | nil => simp [currentRole, replicaRole, sourceRole]
    | cons a t =>
      simp [currentRole, replicaRole, sourceRole, Nat.succ_le_succ]
  | error e =>
    cases s with
    | ok rows =>
      cases rows with
      | nil => simp [currentRole, replicaRole, sourceRole]
      | cons a t =>
        simp [currentRole, replicaRole, sourceRole, Nat.succ_le_succ]
    | error e2 => simp [currentRole, replicaRole, sourceRole]

/-- C7: MySQL replication zones. With the replica role no zones are emitted;
with the source role every address whose resolution yields an FQDN
contributes the FQDN's second dotted component, so
"host.us-central1-a.c.proj.internal." yields zone "us-central1-a". -/
theorem c7_replication_zones (addrs : List String) (net : NetIface)
    (x : Except Unit (List String)) :
    replicationZones replicaRole x net = []
    ∧ (∀ z, z ∈ replicationZones sourceRole (Except.ok addrs) net
        ↔ ∃ a ∈ addrs, resolveZone net a = some z)
    ∧ (∀ (a fqdn : String) (rest : List String),
        net.parsesAsIP a = true →
        net.lookupAddr a = Except.ok (fqdn :: rest) →
        resolveZone net a = zoneFromFqdn fqdn)
    ∧ zoneFromFqdn "host.us-central1-a.c.proj.internal."
        = some "us-central1-a" := by
  refine ⟨?_, fun z => ?_, fun a fqdn rest hip hlook => ?_, by decide⟩
  · simp [replicationZones, replicaRole, sourceRole]
  · simp [replicationZones, sourceRole, List.mem_dedup, List.mem_filterMap]
  · simp [resolveZone, hip, hlook]

/-- C7 witness: the theorem's resolution conjunct applied at a concrete
network interface mapping 1.2.3.4 to a test FQDN. -/
theorem c7_replication_zones_witness :
    resolveZone
      { parsesAsIP := fun a => a = "1.2.3.4"
        lookupAddr := fun a =>
          if a = "1.2.3.4" then
            Except.ok ["testname.test-zone.c.fake-project.internal."]
          else Except.error ()
        lookupHost := fun _ => Except.error () } "1.2.3.4"
      = some "test-zone" := by
  rw [(c7_replication_zones [] _ (Except.error ())).2.2.1 "1.2.3.4"
    "testname.test-zone.c.fake-project.internal." [] (by decide) (by simp)]
  decide

/-- C8: the fan-out's send loop attempts exactly one non-blocking send per
subscriber channel: a full channel is skipped unchanged, every other channel
gains the message, the tally equals the number of channels that were full,
and in every successful discovery round of `CommonDiscovery` one such fan-out
of the Discovery-origin message carrying the round's result is performed. -/
theorem c8_fanout_non_blocking (chs : List MsgChan) (m : Message) :
    ((fanOut chs m).2 = (chs.filter chanFull).length
      ∧ (fanOut chs m).1
          = chs.map (fun c =>
              if chanFull c then c else { c with buffer := c.buffer ++ [m] }))
    ∧ (∀ (fuel k : Nat)
        (listings : Nat → Except String (List ProcessWrapper))
        (res : DiscoveryResult),
        commonDiscoveryLoop (listings k) = Except.ok res →
        commonDiscoveryRun (fuel + 1) listings chs k
          = Round.success res
              (fanOut chs { origin := Origin.discovery,
                            discoveryResult := res }).2
            :: commonDiscoveryRun fuel listings
                (fanOut chs { origin := Origin.discovery,
                              discoveryResult := res }).1 (k + 1)) := by
  constructor
  · induction chs with
    | nil => simp [fanOut]
    | cons c rest ih =>
      by_cases hc : c.buffer.length < c.capacity
      · have hful : chanFull c = false := by
          simp [chanFull]
          omega
        simp [fanOut, trySend, hc, hful, ih]
      · have hful : chanFull c = true := by
          simp [chanFull]
          omega
        simp [fanOut, trySend, hc, hful, ih]
  · intro fuel k listings res h
    simp [commonDiscoveryRun, h]

/-- C8 witness: the round conjunct applied to a one-process listing and one
empty subscriber channel of capacity one. -/
theorem c8_fanout_non_blocking_witness :
    commonDiscoveryRun 1
      (fun _ => Except.ok [{ pid := 1, name := Except.ok "mysqld" }])
      [{ buffer := [], capacity := 1 }] 0
      = [Round.success { processes := [{ pid := 1, name := Except.ok "mysqld" }] } 0] :=
  (c8_fanout_non_blocking [{ buffer := [], capacity := 1 }]
    { origin := Origin.discovery,
      discoveryResult :=
        { processes := [{ pid := 1, name := Except.ok "mysqld" }] } }).2 0 0
    (fun _ => Except.ok [{ pid := 1, name := Except.ok "mysqld" }])
    { processes := [{ pid := 1, name := Except.ok "mysqld" }] } rfl

/-- The latch survives one step of the message handler. -/
theorem checkSC_latch_step (s : OracleState) (m : Message)
    (h : s.isProcessPresent = true) :
    (checkServiceCommunication s m).isProcessPresent = true := by
  obtain ⟨o, dr⟩ := m
  cases o
  · simp only [checkServiceCommunication]
    split <;> simp [h]
  · simpa [checkServiceCommunication] using h
  · simpa [checkServiceCommunication] using h

/-- C9: the latch invariant of the Oracle inbound-message handler. Once
`isProcessPresent` is true it stays true across any further message sequence;
a Discovery-origin message latches it exactly when some process name carries
an Oracle prefix ("ora_pmon_" or "db_pmon_") and overwrites the processes
snapshot; unknown-origin messages leave the state unchanged. -/
theorem c9_process_present_latch (s : OracleState) (m : Message)
    (msgs : List Message) :
    (s.isProcessPresent = true →
      (msgs.foldl checkServiceCommunication s).isProcessPresent = true)
    ∧ (m.origin = Origin.discovery →
        (checkServiceCommunication s m).isProcessPresent
          = (s.isProcessPresent
              || m.discoveryResult.processes.any procMatchesOra)
        ∧ (checkServiceCommunication s m).processes
            = some m.discoveryResult.processes)
    ∧ (m.origin = Origin.unknownOther → checkServiceCommunication s m = s)
    ∧ (s.isProcessPresent = false →
        ((checkServiceCommunication s m).isProcessPresent = true
          ↔ m.origin = Origin.discovery
            ∧ m.discoveryResult.processes.any procMatchesOra = true))
    ∧ (∀ (pid : Int) (n : String),
        procMatchesOra { pid := pid, name := Except.ok n }
          = (("ora_pmon_".data.isPrefixOf n.data)
              || ("db_pmon_".data.isPrefixOf n.data))) := by
  refine ⟨?_, fun h => ?_, fun h => ?_, fun h => ?_, fun pid n => ?_⟩
  · intro h
    induction msgs generalizing s with
    | nil => simpa using h
    | cons a t ih => exact ih _ (checkSC_latch_step s a h)
  · obtain ⟨o, dr⟩ := m
    cases o <;> simp_all
    constructor
    · simp only [checkServiceCommunication]
      split <;> simp_all
    · simp only [checkServiceCommunication]
      split <;> simp
  · obtain ⟨o, dr⟩ := m
    cases o <;> simp_all [checkServiceCommunication]
  · obtain ⟨o, dr⟩ := m
    cases o <;> simp_all [checkServiceCommunication]
    split <;> simp_all
  · simp [procMatchesOra, hasAnyOfPrefixes, oraProcessPrefixes]

/-- C9 witness: the latch conjunct applied to a latched state and a
non-matching message, and the from-false conjunct at a matching one. -/
theorem c9_process_present_latch_witness :
    ((([{ origin := Origin.unknownOther,
          discoveryResult := { processes := [] } }] : List Message).foldl
        checkServiceCommunication
        { isProcessPresent := true, processes := none }).isProcessPresent
      = true)
    ∧ (checkServiceCommunication
        { isProcessPresent := false, processes := none }
        { origin := Origin.discovery,
          discoveryResult :=
            { processes :=
                [{ pid := 7, name := Except.ok "ora_pmon_ORCL" }] } }).isProcessPresent
      = true :=
  ⟨(c9_process_present_latch { isProcessPresent := true, processes := none }
      { origin := Origin.unknownOther, discoveryResult := { processes := [] } }
      [{ origin := Origin.unknownOther,
         discoveryResult := { processes := [] } }]).1 rfl,
   ((c9_process_present_latch { isProcessPresent := false, processes := none }
      { origin := Origin.discovery,
        discoveryResult :=
          { processes := [{ pid := 7, name := Except.ok "ora_pmon_ORCL" }] } }
      []).2.2.2.1 rfl).mpr ⟨rfl, by decide⟩⟩

/-- C10: a data-warehouse client call that returns a nil response together
with a nil error makes `SendDataInsight` return that nil response with no
error; the scripted run consumes exactly one scheduled call (no retry), and
the enclosing Postgres metric tick treats the result as success. -/
theorem c10_nil_response_success (wm : WorkloadMetrics)
    (cp : CloudProperties) (rest : List WLMCallOutcome) :
    sendDataInsight wm cp (none, none) = Except.ok none
    ∧ sendDataInsightScripted wm cp ((none, none) :: rest)
        = (Except.ok none, rest)
    ∧ postgresCollectMetricsOnce (Except.ok ["64MB"]) (none, none) cp
        = Except.ok { workloadType := "POSTGRES",
                      metrics := [(workMemKey, "67108864")] } := by
  refine ⟨rfl, rfl, ?_⟩
  have hp : parseWorkMem "64MB" = some 67108864 := by decide
  have hs : intToDecimalString 67108864 = "67108864" := by decide
  simp [postgresCollectMetricsOnce, hp, hs, sendDataInsight]

end WorkloadAgent
